import Mathlib

/-
  Verification of the Upwork job-matcher backend against its specification.

  Shallow embedding of the two backend modules:
  - src/backend/main.py          (OAuth callback, auth status, jobs endpoint)
  - src/backend/upwork_api.py    (client factory, tenant resolver, categories,
                                  job search variables in the backend copy)
  - src/examples/example/myapp.py (the copy of search_upwork_jobs_gql that
                                  implements the location/keyword/category
                                  precedence, pagination and refined GraphQL
                                  error handling described by the spec)

  Python dictionaries coming back from JSON are modelled with JField, which
  distinguishes an absent key, a key bound to null (Python None), and a key
  bound to a value; Python truthiness of optional strings and lists is
  modelled by pyTruthyStr and pyTruthyList.
-/

/-- A JSON object field as seen by Python dict access: the key may be absent,
bound to null (None), or bound to a value. -/
inductive JField (α : Type) where
  | missing
  | null
  | val (a : α)
deriving DecidableEq, Repr

/-- Python truthiness of an optional string: None and the empty string are
falsy, every other string is truthy. -/
def pyTruthyStr : Option String → Bool
  | none => false
  | some s => !(s == "")

/-- Python truthiness of an optional list: None and the empty list are falsy,
every non-empty list is truthy. -/
def pyTruthyList {α : Type} : Option (List α) → Bool
  | none => false
  | some xs => !xs.isEmpty

theorem pyTruthyStr_isSome {o : Option String} (h : pyTruthyStr o = true) :
    o.isSome = true := by
  cases o <;> simp [pyTruthyStr] at h ⊢

theorem pyTruthyList_isSome {α : Type} {o : Option (List α)}
    (h : pyTruthyList o = true) : o.isSome = true := by
  cases o <;> simp [pyTruthyList] at h ⊢

/-
  Job search query builder, from search_upwork_jobs_gql in
  src/examples/example/myapp.py (lines 95-178): the copy implementing the
  location / keyword / category precedence and the conditional pagination.
-/

/-- The pagination_eq object: always carries first; after only when the
caller passed a truthy cursor. -/
structure PaginationEq where
  first : Int
  after : Option String
deriving DecidableEq, Repr

/-- The marketPlaceJobFilter dictionary. A field holding none models an
absent key. -/
structure MarketFilter where
  locations_any : Option (List String)
  searchExpression_eq : Option String
  categoryIds_any : Option (List String)
  pagination_eq : Option PaginationEq
deriving DecidableEq, Repr

/-- One sortAttributes entry, such as the RECENCY sort. -/
structure SortAttribute where
  field : String
deriving DecidableEq, Repr

/-- The GraphQL variables dictionary sent upstream by the job search. -/
structure SearchVariables where
  searchType : String
  sortAttributes : List SortAttribute
  marketPlaceJobFilter : MarketFilter
deriving DecidableEq, Repr

/-- Python str applied to a category id that is already a string. -/
def str_of_cat_id (s : String) : String := s

/-- The market filter with no keys, written as the empty dict in the source. -/
def empty_market_filter : MarketFilter := ⟨none, none, none, none⟩

/-- Variable construction of search_upwork_jobs_gql
(src/examples/example/myapp.py lines 139-176). The Python default argument
first=50 is modelled by an Option Int that falls back to 50; after=None by
an Option String. Returns the full variables dictionary. -/
def build_search_variables (query : Option String)
    (category_ids : Option (List String)) (locations : Option (List String))
    (first : Option Int) (after : Option String) : SearchVariables :=
  let step : MarketFilter × Bool :=
    if pyTruthyList locations then
      ({ empty_market_filter with locations_any := locations }, true)
    else if pyTruthyStr query then
      ({ empty_market_filter with searchExpression_eq := query }, true)
    else if pyTruthyList category_ids then
      ({ empty_market_filter with
          categoryIds_any :=
            Option.map (fun l => List.map str_of_cat_id l) category_ids }, true)
    else (empty_market_filter, false)
  let market_place_filter := step.1
  let filter_applied := step.2
  if filter_applied then
    { searchType := "USER_JOBS_SEARCH"
      sortAttributes := [⟨"RECENCY"⟩]
      marketPlaceJobFilter :=
        { market_place_filter with
            pagination_eq :=
              some ⟨(first.getD 50),
                    if pyTruthyStr after then after else none⟩ } }
  else
    { searchType := "USER_JOBS_SEARCH"
      sortAttributes := [⟨"RECENCY"⟩]
      marketPlaceJobFilter := empty_market_filter }

/-- The list of the three filter-clause keys present in a built market
filter (pagination_eq is not a filter clause). -/
def present_filter_clauses (f : MarketFilter) : List String :=
  (if f.locations_any.isSome then ["locations_any"] else [])
    ++ (if f.searchExpression_eq.isSome then ["searchExpression_eq"] else [])
    ++ (if f.categoryIds_any.isSome then ["categoryIds_any"] else [])

/-- The clause the claim says is chosen, by precedence, from the truthiness
of locations, query and categoryIds. Stated from the words of the spec. -/
def spec_precedence_clause (loc qry cat : Bool) : List String :=
  if loc then ["locations_any"]
  else if qry then ["searchExpression_eq"]
  else if cat then ["categoryIds_any"]
  else []

/-- True when at least one of the three filter inputs is truthy. -/
def any_filter_present (query : Option String)
    (category_ids : Option (List String))
    (locations : Option (List String)) : Bool :=
  pyTruthyList locations || pyTruthyStr query || pyTruthyList category_ids

/-- Claim C1: for every call to the job-search query builder, the built
marketplace filter contains at most one of the three filter clauses, and the
one present is chosen by the location, then keyword, then category
precedence; the other inputs are ignored for that call. -/
theorem c1_filter_precedence (query : Option String)
    (category_ids : Option (List String)) (locations : Option (List String))
    (first : Option Int) (after : Option String) :
    present_filter_clauses
        ((build_search_variables query category_ids locations first
          after).marketPlaceJobFilter)
      = spec_precedence_clause (pyTruthyList locations) (pyTruthyStr query)
          (pyTruthyList category_ids)
    ∧ (present_filter_clauses
        ((build_search_variables query category_ids locations first
          after).marketPlaceJobFilter)).length ≤ 1 := by
  cases hl : pyTruthyList locations <;> cases hq : pyTruthyStr query <;>
    cases hc : pyTruthyList category_ids <;>
    simp [build_search_variables, present_filter_clauses,
      spec_precedence_clause, empty_market_filter, hl, hq, hc,
      pyTruthyStr_isSome, pyTruthyList_isSome,
      Option.isSome_map]

/-- Claim C2: the builder attaches the pagination clause exactly when one of
the three filters is present, with first defaulting to 50 and the after key
left to the upstream placeholder (omitted) when unset; with no filters the
marketplace filter is the empty object with no pagination field at all. -/
theorem c2_pagination_rules (query : Option String)
    (category_ids : Option (List String)) (locations : Option (List String))
    (first : Option Int) (after : Option String) :
    ((build_search_variables query category_ids locations first
        after).marketPlaceJobFilter.pagination_eq
      = (if any_filter_present query category_ids locations then
          some ⟨(first.getD 50), if pyTruthyStr after then after else none⟩
        else none))
    ∧ (any_filter_present query category_ids locations = false →
        (build_search_variables query category_ids locations first
          after).marketPlaceJobFilter = empty_market_filter) := by
  cases hl : pyTruthyList locations <;> cases hq : pyTruthyStr query <;>
    cases hc : pyTruthyList category_ids <;>
    simp [build_search_variables, any_filter_present, empty_market_filter,
      hl, hq, hc]

/-- Witness for claim C2 at the concrete no-filter input: the built filter is
the empty object. -/
theorem c2_pagination_rules_witness :
    (build_search_variables none none none none none).marketPlaceJobFilter
      = empty_market_filter :=
  (c2_pagination_rules none none none none none).2 rfl

/-
  Response normalizer and GraphQL error handling, from
  search_upwork_jobs_gql in src/examples/example/myapp.py (lines 183-246).
-/

/-- One entry of the skills list, an object with an optional name. -/
structure GqlSkill where
  name : Option String
deriving DecidableEq, Repr

/-- The contractTerms object inside the job object. -/
structure GqlContractTerms where
  contractType : Option String
deriving DecidableEq, Repr

/-- The job object of a node. -/
structure GqlJobObj where
  contractTerms : JField GqlContractTerms
deriving DecidableEq, Repr

/-- The location object inside the client object. -/
structure GqlLocation where
  country : Option String
deriving DecidableEq, Repr

/-- The client object of a node. -/
structure GqlClient where
  location : JField GqlLocation
  totalFeedback : Option String
  totalPostedJobs : Option Int
  totalHires : Option Int
  verificationStatus : Option String
  totalReviews : Option Int
deriving DecidableEq, Repr

/-- One job-posting node of the GraphQL response. -/
structure GqlNode where
  title : Option String
  ciphertext : Option String
  description : Option String
  skills : JField (List GqlSkill)
  createdDateTime : Option String
  category : Option String
  subcategory : Option String
  job : JField GqlJobObj
  client : JField GqlClient
  duration : Option String
deriving DecidableEq, Repr

/-- One edge of the GraphQL response. -/
structure GqlEdge where
  node : JField GqlNode
deriving DecidableEq, Repr

/-- The pageInfo object of the GraphQL response. -/
structure GqlPageInfo where
  endCursor : Option String
  hasNextPage : Option Bool
deriving DecidableEq, Repr

/-- The marketplaceJobPostingsSearch object of the GraphQL response. -/
structure SearchResults where
  totalCount : Option Int
  edges : JField (List GqlEdge)
  pageInfo : JField GqlPageInfo
deriving DecidableEq, Repr

/-- One entry of the errors array of a GraphQL response. -/
structure GqlError where
  message : Option String
deriving DecidableEq, Repr

/-- The data object of the GraphQL search response. -/
structure SearchData where
  marketplaceJobPostingsSearch : JField SearchResults
deriving DecidableEq, Repr

/-- The whole 2xx GraphQL search response body. -/
structure GqlSearchResponse where
  errors : JField (List GqlError)
  data : JField SearchData
deriving DecidableEq, Repr

/-- The flattened client reputation summary of a JobRecord. -/
structure ClientSummary where
  country : Option String
  feedback : Option String
  jobs_posted : Option Int
  past_hires : Option Int
  payment_verification_status : Option String
  reviews_count : Option Int
deriving DecidableEq, Repr

/-- A normalized job record, the output shape of the search. -/
structure JobRecord where
  title : Option String
  id : Option String
  ciphertext : Option String
  snippet : Option String
  skills : List String
  date_created : Option String
  category2 : Option String
  subcategory2 : Option String
  job_type : Option String
  workload : Option String
  duration : Option String
  client : ClientSummary
deriving DecidableEq, Repr

/-- The paging dictionary of a search result. -/
structure PagingOut where
  total : Option Int
  next_cursor : Option String
  has_next_page : Option Bool
deriving DecidableEq, Repr

/-- The dictionary returned by the search: jobs, paging, and an
error_message key that is only present on the handled-error paths. -/
structure SearchResult where
  jobs : List JobRecord
  paging : PagingOut
  error_message : Option String
deriving DecidableEq, Repr

/-- The error kind raised out of the search: every unexpected exception is
wrapped into a ConnectionError by the final except clause. -/
inductive SearchErr where
  | connectionError
deriving DecidableEq, Repr

/-- Python x.get(key, default-dict) followed by the or-empty-dict guard: an
absent or null field degrades to the given empty object. -/
def jfield_or_empty {α : Type} (j : JField α) (empty : α) : α :=
  match j with
  | JField.missing => empty
  | JField.null => empty
  | JField.val a => a

/-- The empty contractTerms dict. -/
def empty_contract_terms : GqlContractTerms := ⟨none⟩

/-- The empty job dict. -/
def empty_job_obj : GqlJobObj := ⟨JField.missing⟩

/-- The empty client dict. -/
def empty_client : GqlClient := ⟨JField.missing, none, none, none, none, none⟩

/-- The empty location dict. -/
def empty_location : GqlLocation := ⟨none⟩

/-- The empty node dict, used when an edge has no node key. -/
def empty_gql_node : GqlNode :=
  ⟨none, none, none, JField.missing, none, none, none, JField.missing,
    JField.missing, none⟩

/-- The skill-name comprehension of the source: keep s.name for each entry
whose name is truthy (present, non-null and non-empty). -/
def skill_names (skills : List GqlSkill) : List String :=
  skills.filterMap (fun s =>
    match s.name with
    | some nm => if nm == "" then none else some nm
    | none => none)

/-- Normalization of one node into a JobRecord
(src/examples/example/myapp.py lines 216-231). Returns none where the
Python code raises: node.get with a list default yields None when the
skills key is bound to null, and iterating None raises a TypeError. -/
def transform_node (node : GqlNode) : Option JobRecord :=
  let job_details := jfield_or_empty node.job empty_job_obj
  let contract_terms :=
    jfield_or_empty job_details.contractTerms empty_contract_terms
  let client_details := jfield_or_empty node.client empty_client
  let client_location :=
    jfield_or_empty client_details.location empty_location
  let finish : List String → Option JobRecord := fun names =>
    some
      { title := node.title
        id := node.ciphertext
        ciphertext := node.ciphertext
        snippet := node.description
        skills := names
        date_created := node.createdDateTime
        category2 := node.category
        subcategory2 := node.subcategory
        job_type := contract_terms.contractType
        workload := none
        duration := node.duration
        client :=
          { country := client_location.country
            feedback := client_details.totalFeedback
            jobs_posted := client_details.totalPostedJobs
            past_hires := client_details.totalHires
            payment_verification_status := client_details.verificationStatus
            reviews_count := client_details.totalReviews } }
  match node.skills with
  | JField.null => none
  | JField.missing => finish []
  | JField.val l => finish (skill_names l)

/-- Normalization of one edge: an absent node key degrades to the empty
dict, a null node raises (none). -/
def transform_edge (edge : GqlEdge) : Option JobRecord :=
  match edge.node with
  | JField.missing => transform_node empty_gql_node
  | JField.null => none
  | JField.val n => transform_node n

/-- The per-edge loop of the source: one failing edge aborts the whole
batch, since the exception propagates out of the for loop. -/
def transform_edges : List GqlEdge → Option (List JobRecord)
  | [] => some []
  | e :: es =>
    match transform_edge e, transform_edges es with
    | some j, some js => some (j :: js)
    | _, _ => none

/-- The zero paging dictionary returned on the handled-error paths. -/
def zero_paging : PagingOut := ⟨some 0, none, some false⟩

/-- Processing of a 2xx GraphQL response body by search_upwork_jobs_gql
(src/examples/example/myapp.py lines 187-242): handled GraphQL errors and a
null search object give an ok result carrying an error message; an empty
errors array (IndexError on errors index 0), a null errors value, a null
data value, a null pageInfo, or a failing edge all raise and are wrapped
into a ConnectionError by the final except clause. -/
def process_search_response (resp : GqlSearchResponse) :
    Except SearchErr SearchResult :=
  match resp.errors with
  | JField.val (e :: _) =>
    Except.ok
      ⟨[], zero_paging,
        some ("Upwork API Error: " ++ e.message.getD "Unknown API error")⟩
  | JField.val [] => Except.error SearchErr.connectionError
  | JField.null => Except.error SearchErr.connectionError
  | JField.missing =>
    match resp.data with
    | JField.null => Except.error SearchErr.connectionError
    | JField.missing =>
      Except.ok ⟨[], zero_paging, some "API returned null results."⟩
    | JField.val d =>
      match d.marketplaceJobPostingsSearch with
      | JField.missing =>
        Except.ok ⟨[], zero_paging, some "API returned null results."⟩
      | JField.null =>
        Except.ok ⟨[], zero_paging, some "API returned null results."⟩
      | JField.val sr =>
        let edges_list : List GqlEdge :=
          match sr.edges with
          | JField.val l => l
          | _ => []
        match transform_edges edges_list with
        | none => Except.error SearchErr.connectionError
        | some jobs =>
          match sr.pageInfo with
          | JField.null => Except.error SearchErr.connectionError
          | JField.missing => Except.ok ⟨jobs, ⟨sr.totalCount, none, none⟩, none⟩
          | JField.val pi =>
            Except.ok ⟨jobs, ⟨sr.totalCount, pi.endCursor, pi.hasNextPage⟩, none⟩

/-- The error message the claim expects: the first upstream error message
for the errors case, the descriptive message for the missing-object case. -/
def c3_expected_message (resp : GqlSearchResponse) : String :=
  match resp.errors with
  | JField.val (e :: _) =>
    "Upwork API Error: " ++ e.message.getD "Unknown API error"
  | _ => "API returned null results."

/-- Claim C3 (amended): for a 2xx search response carrying a non-empty
errors array, or carrying no errors key while its data object is absent or
lacks (absent or null) the marketplaceJobPostingsSearch object, the search
raises nothing and returns empty jobs, zero/false paging, and the expected
error message. -/
theorem c3_error_handling_amended (resp : GqlSearchResponse)
    (h : (∃ e es, resp.errors = JField.val (e :: es))
      ∨ (resp.errors = JField.missing
          ∧ (resp.data = JField.missing
            ∨ ∃ d, resp.data = JField.val d
                ∧ (d.marketplaceJobPostingsSearch = JField.missing
                  ∨ d.marketplaceJobPostingsSearch = JField.null)))) :
    process_search_response resp
      = Except.ok ⟨[], zero_paging, some (c3_expected_message resp)⟩ := by
  obtain ⟨er, da⟩ := resp
  rcases h with ⟨e, es, he⟩ | ⟨he, hd⟩
  · simp only at he
    subst he
    rfl
  · simp only at he
    subst he
    rcases hd with hd | ⟨d, hd, hs⟩
    · simp only at hd
      subst hd
      rfl
    · simp only at hd
      subst hd
      obtain ⟨ms⟩ := d
      simp only at hs
      rcases hs with hs | hs <;> subst hs <;> rfl

/-- Witness for claim C3 at a concrete errors-array response. -/
theorem c3_error_handling_witness :
    process_search_response ⟨JField.val [⟨some "boom"⟩], JField.missing⟩
      = Except.ok
          ⟨[], zero_paging,
            some (c3_expected_message
              ⟨JField.val [⟨some "boom"⟩], JField.missing⟩)⟩ :=
  c3_error_handling_amended ⟨JField.val [⟨some "boom"⟩], JField.missing⟩
    (Or.inl ⟨⟨some "boom"⟩, [], rfl⟩)

/-- Counterexample to claim C3 as stated: a 2xx response that contains an
errors array (the empty one), and a 2xx response whose data lacks the
search result object because data itself is null, both raise a wrapped
ConnectionError instead of returning a well-formed result. -/
theorem c3_counterexample :
    process_search_response ⟨JField.val [], JField.missing⟩
        = Except.error SearchErr.connectionError
      ∧ process_search_response ⟨JField.missing, JField.null⟩
        = Except.error SearchErr.connectionError :=
  ⟨rfl, rfl⟩

/-- The claim-side condition that the client location is absent: the client
object or its location object is missing or null. -/
def client_location_absent (node : GqlNode) : Bool :=
  match node.client with
  | JField.missing => true
  | JField.null => true
  | JField.val c =>
    match c.location with
    | JField.missing => true
    | JField.null => true
    | JField.val _ => false

/-- The skill entries of a node, empty when the skills key is not bound to
a list. -/
def skills_entries (node : GqlNode) : List GqlSkill :=
  match node.skills with
  | JField.val l => l
  | _ => []

/-- Claim C7 (amended): normalization of a node whose skills key is not
explicitly null is total; missing or null job, contractTerms, client and
location degrade to null output fields, in particular an absent
client.location yields a null country; and every name in the output skill
list comes from a skill entry that has that name, so entries lacking a name
are dropped rather than failing. -/
theorem c7_normalizer_amended (node : GqlNode)
    (h : node.skills ≠ JField.null) :
    ∃ r, transform_node node = some r
      ∧ (client_location_absent node = true → r.client.country = none)
      ∧ (∀ nm, nm ∈ r.skills →
          ∃ s, s ∈ skills_entries node ∧ s.name = some nm) := by
  have hcountry :
      client_location_absent node = true →
      (jfield_or_empty
          (jfield_or_empty node.client empty_client).location
          empty_location).country = none := by
    intro habs
    unfold client_location_absent at habs
    cases hc : node.client with
    | missing => simp [jfield_or_empty, empty_client, empty_location]
    | null => simp [jfield_or_empty, empty_client, empty_location]
    | val c =>
      rw [hc] at habs
      simp only [jfield_or_empty]
      cases hl : c.location with
      | missing => simp [empty_location]
      | null => simp [empty_location]
      | val l => simp [hl] at habs
  have hskill : ∀ (l : List GqlSkill) (nm : String), nm ∈ skill_names l →
      ∃ s, s ∈ l ∧ s.name = some nm := by
    intro l nm hmem
    unfold skill_names at hmem
    rcases List.mem_filterMap.mp hmem with ⟨s, hs, hf⟩
    refine ⟨s, hs, ?_⟩
    cases hn : s.name with
    | none => rw [hn] at hf; simp at hf
    | some m =>
      rw [hn] at hf
      by_cases hm : m == ""
      · simp [hm] at hf
      · simp [hm] at hf; rw [hf]
  cases hs : node.skills with
  | null => exact absurd hs h
  | missing =>
    refine ⟨_, by unfold transform_node; rw [hs], ?_, ?_⟩
    · intro habs; exact hcountry habs
    · intro nm hmem; simp at hmem
  | val l =>
    refine ⟨_, by unfold transform_node; rw [hs], ?_, ?_⟩
    · intro habs; exact hcountry habs
    · intro nm hmem
      simp only at hmem
      rcases hskill l nm hmem with ⟨s, hsl, hname⟩
      refine ⟨s, ?_, hname⟩
      unfold skills_entries
      rw [hs]
      exact hsl

/-- A node whose skills key is bound to null, with client null too. -/
def node_null_skills : GqlNode :=
  ⟨none, none, none, JField.null, none, none, none, JField.missing,
    JField.null, none⟩

/-- A node whose client is null and whose skills list has one named and one
nameless entry, used as the C7 witness input. -/
def node_c7_witness : GqlNode :=
  ⟨some "t", some "c", none, JField.val [⟨some "Python"⟩, ⟨none⟩], none,
    none, none, JField.missing, JField.null, none⟩

/-- Witness for claim C7 at a concrete node with a null client and a skill
entry lacking a name: normalization succeeds and the country is null. -/
theorem c7_normalizer_witness :
    ∃ r, transform_node node_c7_witness = some r
      ∧ r.client.country = none := by
  obtain ⟨r, hr, hcountry, _⟩ :=
    c7_normalizer_amended node_c7_witness (by decide)
  exact ⟨r, hr, hcountry (by decide)⟩

/-- Counterexample to claim C7 as stated: a node whose skills key is bound
to null makes normalization raise, and one such node aborts the whole
batch, dropping its sibling edges. -/
theorem c7_counterexample :
    transform_node node_null_skills = none
      ∧ transform_edges [⟨JField.missing⟩, ⟨JField.val node_null_skills⟩]
          = none :=
  ⟨rfl, rfl⟩

/-
  OAuth token exchange callback and auth status, from src/backend/main.py
  (oauth_callback, lines 114-169, and get_auth_status, lines 171-185).
-/

/-- The durable credential store slice written by the callback: the
UPWORK_ACCESS_TOKEN and UPWORK_REFRESH_TOKEN entries of the .env file.
A none field models an absent key. -/
structure CredStore where
  access : Option String
  refresh : Option String
deriving DecidableEq, Repr

/-- The parsed JSON body of the upstream token endpoint response; either
token may be absent (tokens.get then yields None). -/
structure TokenBody where
  access_token : Option String
  refresh_token : Option String
deriving DecidableEq, Repr

/-- An upstream token endpoint response: HTTP status code and, when the
body parses as JSON, the parsed body. -/
structure TokenResponse where
  statusCode : Nat
  body : Option TokenBody
deriving DecidableEq, Repr

/-- The HTTP response of the callback endpoint: a status code and the
Location header. RedirectResponse always carries status 307. -/
structure HttpOut where
  status : Nat
  location : Option String
deriving DecidableEq, Repr

/-- A RedirectResponse to the given URL. -/
def redirectTo (url : String) : HttpOut := ⟨307, some url⟩

/-- Success of an HTTP status code as tested by raise_for_status. -/
def is2xx (c : Nat) : Bool := 200 ≤ c && c < 300

/-- The error redirect URL built by the f-strings of the except clauses. -/
def error_redirect_url (frontendUrl msg : String) : String :=
  frontendUrl ++ ("?auth_status=error&message=" ++ msg)

/-- The success redirect URL of the callback. -/
def success_redirect_url (frontendUrl : String) : String :=
  frontendUrl ++ "?auth_status=success&refresh=true"

/-- The oauth_callback handler (src/backend/main.py lines 114-169), after
the POST to the token endpoint has produced resp. Non-2xx statuses raise
HTTPStatusError at raise_for_status and redirect with the status code in
the message. A body that does not parse, or whose access_token is absent
or empty, takes the generic except path with the store untouched. With a
truthy access token, set_key writes the access token; if refresh_token is
absent, the following set_key receives None and raises an AttributeError
inside python-dotenv, so the generic except path redirects with an error
while the access token write has already happened. Otherwise both tokens
are persisted and the success redirect is returned. -/
def oauth_callback (frontendUrl : String) (store : CredStore)
    (resp : TokenResponse) : HttpOut × CredStore :=
  if is2xx resp.statusCode = false then
    (redirectTo
        (error_redirect_url frontendUrl
          ("HTTP_Error_" ++ toString resp.statusCode)),
      store)
  else
    match resp.body with
    | none =>
      (redirectTo (error_redirect_url frontendUrl "Failed_to_get_tokens"),
        store)
    | some tokens =>
      match tokens.access_token with
      | none =>
        (redirectTo (error_redirect_url frontendUrl "Failed_to_get_tokens"),
          store)
      | some tok =>
        if tok == "" then
          (redirectTo
              (error_redirect_url frontendUrl "Failed_to_get_tokens"),
            store)
        else
          match tokens.refresh_token with
          | none =>
            (redirectTo
                (error_redirect_url frontendUrl "Failed_to_get_tokens"),
              ⟨some tok, store.refresh⟩)
          | some rtok =>
            (redirectTo (success_redirect_url frontendUrl),
              ⟨some tok, some rtok⟩)

/-- True when the token exchange fails: non-2xx status, unparseable body,
or no truthy access_token in the body. -/
def token_exchange_failed (resp : TokenResponse) : Bool :=
  !(is2xx resp.statusCode)
    || !(match resp.body with
        | none => false
        | some b => pyTruthyStr b.access_token)

/-- The error message of the claim: the upstream status code is encoded
when the failure was an HTTP error, a generic message otherwise. -/
def c4_message (resp : TokenResponse) : String :=
  if is2xx resp.statusCode = false then
    "HTTP_Error_" ++ toString resp.statusCode
  else "Failed_to_get_tokens"

/-- Claim C4: the callback always answers with a 307 redirect (never a
5xx), and on every non-2xx upstream response or 2xx body without an access
token it redirects with auth_status=error and a message encoding the
upstream status code for HTTP errors. -/
theorem c4_oauth_callback_errors (frontendUrl : String) (store : CredStore)
    (resp : TokenResponse) :
    ((oauth_callback frontendUrl store resp).1.status = 307)
    ∧ (token_exchange_failed resp = true →
        (oauth_callback frontendUrl store resp).1
          = redirectTo (error_redirect_url frontendUrl (c4_message resp))) := by
  obtain ⟨code, body⟩ := resp
  by_cases h2 : is2xx code = false
  · simp [oauth_callback, token_exchange_failed, c4_message, h2, redirectTo]
  · simp only [Bool.not_eq_false] at h2
    cases body with
    | none =>
      simp [oauth_callback, token_exchange_failed, c4_message, h2,
        redirectTo]
    | some tokens =>
      cases ha : tokens.access_token with
      | none =>
        simp [oauth_callback, token_exchange_failed, c4_message, h2, ha,
          pyTruthyStr, redirectTo]
      | some tok =>
        by_cases he : tok == ""
        · simp [oauth_callback, token_exchange_failed, c4_message, h2, ha,
            he, pyTruthyStr, redirectTo]
        · cases hr : tokens.refresh_token with
          | none =>
            simp [oauth_callback, token_exchange_failed, c4_message, h2,
              ha, he, hr, pyTruthyStr, redirectTo]
          | some rtok =>
            simp [oauth_callback, token_exchange_failed, c4_message, h2,
              ha, he, hr, pyTruthyStr, redirectTo]

/-- Witness for claim C4 at a concrete upstream 502 response: the callback
answers with the error redirect encoding 502, not a 5xx. -/
theorem c4_oauth_callback_errors_witness :
    (oauth_callback "http://localhost:8501" ⟨none, none⟩ ⟨502, none⟩).1
      = redirectTo
          (error_redirect_url "http://localhost:8501"
            (c4_message ⟨502, none⟩)) :=
  (c4_oauth_callback_errors "http://localhost:8501" ⟨none, none⟩
    ⟨502, none⟩).2 (by decide)

/-- Claim C5 (amended): on a 2xx token response whose body carries a
non-empty access_token and a refresh_token, the callback persists both
tokens to the store and redirects with the success indicator. When
refresh_token is absent the handler instead fails inside the second
set_key after the access token has already been written, producing an
error redirect and a store where only the access token was updated. -/
theorem c5_success_persists_both (frontendUrl : String) (store : CredStore)
    (code : Nat) (tok rtok : String) (h2 : is2xx code = true)
    (ha : tok ≠ "") :
    oauth_callback frontendUrl store ⟨code, some ⟨some tok, some rtok⟩⟩
      = (redirectTo (success_redirect_url frontendUrl),
          ⟨some tok, some rtok⟩) := by
  simp [oauth_callback, h2, ha]

/-- Witness for claim C5 at a concrete successful exchange. -/
theorem c5_success_persists_both_witness :
    oauth_callback "http://localhost:8501" ⟨none, none⟩
        ⟨200, some ⟨some "tokA", some "tokR"⟩⟩
      = (redirectTo (success_redirect_url "http://localhost:8501"),
          ⟨some "tokA", some "tokR"⟩) :=
  c5_success_persists_both "http://localhost:8501" ⟨none, none⟩ 200
    "tokA" "tokR" (by decide) (by decide)

/-- Counterexample to claim C5 as stated: a 2xx response whose body has an
access token but no refresh token does not get an empty string written for
the refresh token; the access token alone is persisted, leaving a partial
credential state, and the redirect indicates an error, not success. -/
theorem c5_counterexample :
    (oauth_callback "http://localhost:8501" ⟨none, none⟩
        ⟨200, some ⟨some "tokA", none⟩⟩).2
      = ⟨some "tokA", none⟩
    ∧ (oauth_callback "http://localhost:8501" ⟨none, none⟩
        ⟨200, some ⟨some "tokA", none⟩⟩).2
      ≠ ⟨some "tokA", some ""⟩
    ∧ (oauth_callback "http://localhost:8501" ⟨none, none⟩
        ⟨200, some ⟨some "tokA", none⟩⟩).1
      = redirectTo
          (error_redirect_url "http://localhost:8501"
            "Failed_to_get_tokens") := by
  refine ⟨rfl, ?_, rfl⟩
  decide

/-- The get_auth_status handler (src/backend/main.py lines 171-185):
authenticated is the truthiness of access_token and refresh_token. -/
def get_auth_status (store : CredStore) : Bool :=
  pyTruthyStr store.access && pyTruthyStr store.refresh

/-- Claim C6 (amended): the auth status is true exactly when both a
non-empty access token and a non-empty refresh token are currently held. -/
theorem c6_auth_status_amended (store : CredStore) :
    get_auth_status store = true
      ↔ ((∃ a, store.access = some a ∧ a ≠ "")
          ∧ (∃ r, store.refresh = some r ∧ r ≠ "")) := by
  obtain ⟨a, r⟩ := store
  cases a <;> cases r <;>
    simp [get_auth_status, pyTruthyStr]

/-- Counterexample to claim C6 as stated: a store holding a non-empty
access token but no refresh token reports authenticated = false. -/
theorem c6_counterexample :
    get_auth_status ⟨some "tok", none⟩ = false
      ∧ pyTruthyStr (some "tok") = true := by
  decide

/-
  Tenant resolver, from get_organization_tenant_id in
  src/backend/upwork_api.py (lines 53-115).
-/

/-- One item of the companySelector items list. -/
structure OrgItem where
  organizationId : Option String
deriving DecidableEq, Repr

/-- The companySelector object. -/
structure CompanySelector where
  items : JField (List OrgItem)
deriving DecidableEq, Repr

/-- The data object of the companySelector response. -/
structure CompanyData where
  companySelector : JField CompanySelector
deriving DecidableEq, Repr

/-- The companySelector GraphQL response body. A falsy response (None or
the empty dict) is modelled as the none case of the surrounding Option. -/
structure CompanyResponse where
  data : JField CompanyData
deriving DecidableEq, Repr

/-- The outcome of the upstream client.post call: either the transport or
SDK raised, or a response value came back (none for a falsy response). -/
inductive UpstreamOutcome (α : Type) where
  | exn
  | value (v : α)
deriving DecidableEq, Repr

/-- The error raised out of the tenant resolver: the final except clause
wraps every failure into a ConnectionError. -/
inductive ResolveError where
  | connectionError
deriving DecidableEq, Repr

/-- The HTTP status the REST layer maps a wrapped ConnectionError to
(except ConnectionError clauses in src/backend/main.py). -/
def resolve_error_http_status : ResolveError → Nat
  | ResolveError.connectionError => 503

/-- The observable outcome of one resolver call: the returned or raised
result, the tenant cache after the call, and whether the upstream
companySelector query was issued. -/
structure ResolveResult where
  result : Except ResolveError String
  newCache : Option String
  calledUpstream : Bool

/-- One call to get_organization_tenant_id (src/backend/upwork_api.py
lines 56-115), given the cached tenant id, the UPWORK_DEFAULT_TENANT_ID
environment value and the upstream outcome. A cached id returns at once
with no upstream call. Otherwise the upstream query runs: a raised
transport error, a falsy response, or a null data or companySelector
value all end in the wrapping except clause (a chained dict get follows
and raises on None); a missing, null or empty items value is falsy at the
if-not-items test and falls back to the default tenant id, which is
cached and returned when truthy, failing otherwise; a first item without
a truthy organizationId fails; and a truthy organizationId is cached and
returned. -/
def resolve_tenant_once (defaultTenant : Option String)
    (cache : Option String)
    (upstream : UpstreamOutcome (Option CompanyResponse)) : ResolveResult :=
  match cache with
  | some t => ⟨Except.ok t, some t, false⟩
  | none =>
    let fallback : ResolveResult :=
      if pyTruthyStr defaultTenant then
        ⟨Except.ok (defaultTenant.getD ""), defaultTenant, true⟩
      else ⟨Except.error ResolveError.connectionError, none, true⟩
    match upstream with
    | UpstreamOutcome.exn =>
      ⟨Except.error ResolveError.connectionError, none, true⟩
    | UpstreamOutcome.value none =>
      ⟨Except.error ResolveError.connectionError, none, true⟩
    | UpstreamOutcome.value (some r) =>
      match r.data with
      | JField.null => ⟨Except.error ResolveError.connectionError, none, true⟩
      | JField.missing => fallback
      | JField.val d =>
        match d.companySelector with
        | JField.null =>
          ⟨Except.error ResolveError.connectionError, none, true⟩
        | JField.missing => fallback
        | JField.val cs =>
          match cs.items with
          | JField.null => fallback
          | JField.missing => fallback
          | JField.val [] => fallback
          | JField.val (i :: _) =>
            match i.organizationId with
            | none =>
              ⟨Except.error ResolveError.connectionError, none, true⟩
            | some oid =>
              if oid == "" then
                ⟨Except.error ResolveError.connectionError, none, true⟩
              else ⟨Except.ok oid, some oid, true⟩

/-- A transport failure or a parse failure of the resolution: the call
raised, the response was falsy, or the data or companySelector level is
bound to null so that the chained dict get that follows raises. A null
items value is not such a failure: no get follows items in the source,
the value is merely falsy at the if-not-items test, and the call can
still succeed through the default-tenant fallback. -/
def transport_or_parse_failure :
    UpstreamOutcome (Option CompanyResponse) → Bool
  | UpstreamOutcome.exn => true
  | UpstreamOutcome.value none => true
  | UpstreamOutcome.value (some r) =>
    match r.data with
    | JField.null => true
    | JField.missing => false
    | JField.val d =>
      match d.companySelector with
      | JField.null => true
      | JField.missing => false
      | JField.val _ => false

/-- Claim C8: a tenant resolution attempt that fails with a transport or
parse error raises the single wrapped ConnectionError (mapped to 503),
leaves the cache unresolved, and a later call with that cache consults the
upstream organization lookup again. -/
theorem c8_tenant_failure (defaultTenant : Option String)
    (up : UpstreamOutcome (Option CompanyResponse))
    (h : transport_or_parse_failure up = true) :
    resolve_tenant_once defaultTenant none up
        = ⟨Except.error ResolveError.connectionError, none, true⟩
      ∧ resolve_error_http_status ResolveError.connectionError = 503
      ∧ (resolve_tenant_once defaultTenant
          ((resolve_tenant_once defaultTenant none up).newCache)
          up).calledUpstream = true := by
  have hfail : resolve_tenant_once defaultTenant none up
      = ⟨Except.error ResolveError.connectionError, none, true⟩ := by
    cases up with
    | exn => rfl
    | value v =>
      cases v with
      | none => rfl
      | some r =>
        obtain ⟨da⟩ := r
        cases da with
        | null => rfl
        | missing => simp [transport_or_parse_failure] at h
        | val d =>
          obtain ⟨cs⟩ := d
          cases cs with
          | null => rfl
          | missing => simp [transport_or_parse_failure] at h
          | val c => simp [transport_or_parse_failure] at h
  refine ⟨hfail, rfl, ?_⟩
  rw [hfail]
  cases up with
  | exn => rfl
  | value v =>
    cases v with
    | none => rfl
    | some r =>
      obtain ⟨da⟩ := r
      cases da with
      | null => rfl
      | missing => simp [transport_or_parse_failure] at h
      | val d =>
        obtain ⟨cs⟩ := d
        cases cs with
        | null => rfl
        | missing => simp [transport_or_parse_failure] at h
        | val c => simp [transport_or_parse_failure] at h

/-- Witness for claim C8 at a concrete transport failure with no default
tenant configured. -/
theorem c8_tenant_failure_witness :
    resolve_tenant_once none none UpstreamOutcome.exn
        = ⟨Except.error ResolveError.connectionError, none, true⟩
      ∧ resolve_error_http_status ResolveError.connectionError = 503
      ∧ (resolve_tenant_once none
          ((resolve_tenant_once none none UpstreamOutcome.exn).newCache)
          UpstreamOutcome.exn).calledUpstream = true :=
  c8_tenant_failure none UpstreamOutcome.exn rfl

/-
  POST /jobs/fetch request model and the backend copy of the variable
  construction, from src/backend/main.py (JobSearchRequest, lines 63-66,
  and fetch_jobs, lines 74-95) and src/backend/upwork_api.py
  (search_upwork_jobs_gql, lines 154-223).
-/

/-- The fields a caller may put in the /jobs/fetch JSON body, including the
ones the frontend sends but the request model does not declare. -/
structure JobsFetchBody where
  query : Option String
  category_ids : Option (List String)
  locations : Option (List String)
  first : Option Int
  after : Option String
deriving DecidableEq, Repr

/-- The JobSearchRequest pydantic model: only query and category_ids are
declared; every other body field is ignored by the default config. -/
structure JobSearchRequest where
  query : Option String
  category_ids : Option (List String)
deriving DecidableEq, Repr

/-- Validation of a /jobs/fetch body against JobSearchRequest: the
undeclared locations, first and after fields are dropped. -/
def parse_job_search_request (b : JobsFetchBody) : JobSearchRequest :=
  ⟨b.query, b.category_ids⟩

/-- The marketPlaceJobFilter of the backend copy: only the keyword and
category clauses exist, applied independently. -/
structure BackendMarketFilter where
  searchExpression_eq : Option String
  categoryIds_any : Option (List String)
deriving DecidableEq, Repr

/-- The variables dictionary of the backend copy of the search. -/
structure BackendSearchVariables where
  marketPlaceJobFilter : BackendMarketFilter
  searchType : String
  sortAttributes : List SortAttribute
deriving DecidableEq, Repr

/-- Variable construction of search_upwork_jobs_gql in
src/backend/upwork_api.py (lines 209-223): keyword and category clauses
are added by independent truthiness tests, there is no location clause and
no pagination. -/
def backend_search_variables (query : Option String)
    (category_ids : Option (List String)) : BackendSearchVariables :=
  let f0 : BackendMarketFilter := ⟨none, none⟩
  let f1 :=
    if pyTruthyStr query then { f0 with searchExpression_eq := query }
    else f0
  let f2 :=
    if pyTruthyList category_ids then
      { f1 with
          categoryIds_any :=
            Option.map (fun l => List.map str_of_cat_id l) category_ids }
    else f1
  ⟨f2, "USER_JOBS_SEARCH", [⟨"RECENCY"⟩]⟩

/-- The variables the fetch_jobs endpoint sends upstream for a given body:
fetch_jobs passes only query and category_ids of the validated request. -/
def fetch_jobs_variables (b : JobsFetchBody) : BackendSearchVariables :=
  backend_search_variables (parse_job_search_request b).query
    (parse_job_search_request b).category_ids

/-- Claim C9: two /jobs/fetch bodies agreeing on query and category_ids
validate to the same request and make the backend build identical upstream
GraphQL variables, so any locations, first or after fields in the body
never influence the executed search, and any result computed downstream
from the variables is identical as well. -/
theorem c9_request_model_discards (b1 b2 : JobsFetchBody)
    (hq : b1.query = b2.query) (hc : b1.category_ids = b2.category_ids) :
    parse_job_search_request b1 = parse_job_search_request b2
      ∧ fetch_jobs_variables b1 = fetch_jobs_variables b2 := by
  have hparse : parse_job_search_request b1 = parse_job_search_request b2 := by
    simp [parse_job_search_request, hq, hc]
  refine ⟨hparse, ?_⟩
  unfold fetch_jobs_variables
  rw [hparse]

/-- Witness for claim C9: a body carrying locations, first and after next
to a body without them yields identical variables. -/
theorem c9_request_model_discards_witness :
    parse_job_search_request
        ⟨some "python", none, some ["USA"], some 10, some "cursor"⟩
      = parse_job_search_request ⟨some "python", none, none, none, none⟩
    ∧ fetch_jobs_variables
        ⟨some "python", none, some ["USA"], some 10, some "cursor"⟩
      = fetch_jobs_variables ⟨some "python", none, none, none, none⟩ :=
  c9_request_model_discards
    ⟨some "python", none, some ["USA"], some 10, some "cursor"⟩
    ⟨some "python", none, none, none, none⟩ rfl rfl

/-
  Category listing, from fetch_upwork_categories in
  src/backend/upwork_api.py (lines 118-151).
-/

/-- One category entry of the predefined list. -/
structure Category where
  id : String
  label : String
deriving DecidableEq, Repr

/-- The hard-coded category list of fetch_upwork_categories. -/
def predefined_categories : List Category :=
  [⟨"531770282580668419", "Web Development"⟩,
   ⟨"531770282580668420", "Mobile Development"⟩,
   ⟨"531770282580668421", "UI/UX Design"⟩,
   ⟨"531770282580668422", "Data Science & Analytics"⟩,
   ⟨"531770282580668423", "DevOps & System Administration"⟩,
   ⟨"531770282580668424", "QA & Testing"⟩,
   ⟨"531770282580668425", "Project Management"⟩,
   ⟨"531770282580668426", "Content Writing"⟩,
   ⟨"531770282580668427", "Translation"⟩,
   ⟨"531770282580668428", "Digital Marketing"⟩,
   ⟨"531770282580668429", "SEO"⟩,
   ⟨"531770282580668430", "Social Media Marketing"⟩,
   ⟨"531770282580668431", "Video & Animation"⟩,
   ⟨"531770282580668432", "Graphic Design"⟩,
   ⟨"531770282580668433", "Accounting & Bookkeeping"⟩,
   ⟨"531770282580668434", "Customer Service"⟩,
   ⟨"531770282580668435", "Data Entry"⟩,
   ⟨"531770282580668436", "Virtual Assistant"⟩,
   ⟨"531770282580668437", "Sales & Marketing"⟩,
   ⟨"531770282580668438", "Business Analysis"⟩,
   ⟨"531770282580668439", "Legal"⟩,
   ⟨"531770282580668440", "Engineering & Architecture"⟩,
   ⟨"531770282580668441", "Other"⟩]

/-- The fetch_upwork_categories function (src/backend/upwork_api.py lines
118-151): the ambient credential environment is passed explicitly to show
it is never read; the body only logs and returns the predefined list, so
no network request is made and nothing is raised. -/
def fetch_upwork_categories (_env : CredStore) :
    Except ResolveError (List Category) :=
  Except.ok predefined_categories

/-- Claim C10: fetch_upwork_categories is a constant function: under every
credential environment it returns, without raising, the same hard-coded
list of 23 category entries. -/
theorem c10_categories_constant (env1 env2 : CredStore) :
    fetch_upwork_categories env1 = Except.ok predefined_categories
      ∧ fetch_upwork_categories env1 = fetch_upwork_categories env2
      ∧ predefined_categories.length = 23 :=
  ⟨rfl, rfl, rfl⟩
